import Mathlib

/-!
Shallow embedding of `src/Pytero/requests.py` (the `RequestManager` class):
query-string validation, body selection, the request/response classification
of `_make`, and the event emission it performs.  Python values that can occur
in the keyword-parameter dict are modelled by `PyValue`; the network exchange
is modelled by passing in a `World` holding the response and the two clock
readings taken around the request.
-/

/-- Model of the Python values that flow through the `**params` dict of
`RequestManager._make`: `None`, ints, strings, tuples of strings and lists of
strings (the shapes the query options and the raw-body sentinel take). -/
inductive PyValue where
  | none
  | int (n : Int)
  | str (s : String)
  | tuple (xs : List String)
  | list (xs : List String)
deriving DecidableEq, Repr

/-- The `**params` keyword dict, as an association list in insertion order
(Python dicts preserve insertion order and have unique keys). -/
abbrev Params := List (String × PyValue)

/-- `dict.get(k)`: first binding of `k`, defaulting to `None`. -/
def dict_get (params : Params) (k : String) : PyValue :=
  match params with
  | [] => PyValue.none
  | (k', v) :: rest => if k' = k then v else dict_get rest k

/-- Python truthiness for the modelled values (`if p := query.get(...)`). -/
def truthy : PyValue → Bool
  | PyValue.none => false
  | PyValue.int n => n != 0
  | PyValue.str s => s != ""
  | PyValue.tuple xs => !xs.isEmpty
  | PyValue.list xs => !xs.isEmpty

/-- Exceptions `_validate_query` can raise: its explicit `ValidationError`s,
and the `TypeError` Python raises when a truthy value of the wrong shape meets
a comparison or `%`-format. -/
inductive PyErr where
  | validationError (msg : String)
  | typeError
deriving DecidableEq, Repr

/-- `sep.join(xs)` for Python string join. -/
def strJoin (sep : String) : List String → String
  | [] => ""
  | [x] => x
  | x :: y :: xs => x ++ sep ++ strJoin sep (y :: xs)

/-- The `page` block of `_validate_query` (lines 34-38).  The source guard is
the chained comparison `1 < p > 50`, i.e. `1 < p and p > 50`. -/
def clause_page (q : Params) : Except PyErr (List String) :=
  let p := dict_get q "page"
  if truthy p then
    match p with
    | PyValue.int n =>
        if 1 < n ∧ 50 < n then
          Except.error (PyErr.validationError "page number must be between 1 and 50")
        else Except.ok ["page=" ++ toString n]
    | _ => Except.error PyErr.typeError
  else Except.ok []

/-- The `per_page` block of `_validate_query` (lines 40-44); guard
`1 < p > 100`. -/
def clause_per_page (q : Params) : Except PyErr (List String) :=
  let p := dict_get q "per_page"
  if truthy p then
    match p with
    | PyValue.int n =>
        if 1 < n ∧ 100 < n then
          Except.error (PyErr.validationError "per_page number must be between 1 and 100")
        else Except.ok ["per_page=" ++ toString n]
    | _ => Except.error PyErr.typeError
  else Except.ok []

/-- The `filter` block (lines 46-47): `'filter[%s]=%s' % p` needs `p` to be a
tuple of exactly two values; any other truthy shape raises `TypeError`. -/
def clause_filter (q : Params) : Except PyErr (List String) :=
  let p := dict_get q "filter"
  if truthy p then
    match p with
    | PyValue.tuple [a, b] => Except.ok ["filter[" ++ a ++ "]=" ++ b]
    | _ => Except.error PyErr.typeError
  else Except.ok []

/-- Iterating a truthy value in `list(filter(lambda i: i, p))`: lists and
tuples yield their items, a string yields its characters (each a nonempty
one-character string); ints are not iterable. -/
def seqElems : PyValue → Option (List String)
  | PyValue.list xs => some xs
  | PyValue.tuple xs => some xs
  | PyValue.str s => some (s.data.map (fun c => String.mk [c]))
  | _ => Option.none

/-- The `include` block (lines 49-52): falsy items are dropped, and the clause
is appended only when something remains after filtering. -/
def clause_include (q : Params) : Except PyErr (List String) :=
  let p := dict_get q "include"
  if truthy p then
    match seqElems p with
    | some xs =>
        let xs' := xs.filter (fun i => i ≠ "")
        if xs'.length ≠ 0 then Except.ok ["include=" ++ strJoin "," xs']
        else Except.ok []
    | Option.none => Except.error PyErr.typeError
  else Except.ok []

/-- Python `repr` of a string, for `'%s'`-formatting a list (quote-free
strings; the claims never exercise quoted content). -/
def pyRepr (s : String) : String := "'" ++ s ++ "'"

/-- The `sort` block (lines 54-55): `'sort=%s' % p` stringifies any single
value; a tuple is treated as the argument pack of the format, so only a
one-element tuple formats, any other arity raises `TypeError`. -/
def clause_sort (q : Params) : Except PyErr (List String) :=
  let p := dict_get q "sort"
  if truthy p then
    match p with
    | PyValue.str s => Except.ok ["sort=" ++ s]
    | PyValue.int n => Except.ok ["sort=" ++ toString n]
    | PyValue.list xs =>
        Except.ok ["sort=" ++ ("[" ++ strJoin ", " (xs.map pyRepr) ++ "]")]
    | PyValue.tuple [x] => Except.ok ["sort=" ++ x]
    | _ => Except.error PyErr.typeError
  else Except.ok []

/-- The `res` list built by `_validate_query` lines 32-55: the five blocks run
in source order, the first raised exception propagating. -/
def query_clauses (q : Params) : Except PyErr (List String) :=
  (clause_page q).bind fun c1 =>
  (clause_per_page q).bind fun c2 =>
  (clause_filter q).bind fun c3 =>
  (clause_include q).bind fun c4 =>
  (clause_sort q).bind fun c5 =>
  Except.ok (c1 ++ c2 ++ c3 ++ c4 ++ c5)

/-- Lines 57-60 of `_validate_query`:
`'?' + res[0] + ('&' + '&'.join(res[1:]) if len(res) > 1 else '')`. -/
def render : List String → String
  | [] => ""
  | r :: rest => "?" ++ r ++ (if rest.length > 0 then "&" ++ strJoin "&" rest else "")

/-- `RequestManager._validate_query` (lines 31-60). -/
def validate_query (q : Params) : Except PyErr String :=
  match query_clauses q with
  | Except.error e => Except.error e
  | Except.ok res => Except.ok (render res)

/-- The spec's `QueryOptions` record: the five recognized query options, each
optional (section 3 of the spec). -/
structure QueryOptions where
  page : Option Int := Option.none
  per_page : Option Int := Option.none
  filter : Option (String × String) := Option.none
  incl : Option (List String) := Option.none
  sort : Option String := Option.none

/-- The keyword dict a caller supplies for a `QueryOptions` record, one entry
per supplied option. -/
def QueryOptions.toParams (o : QueryOptions) : Params :=
  (match o.page with | some n => [("page", PyValue.int n)] | Option.none => []) ++
  (match o.per_page with | some n => [("per_page", PyValue.int n)] | Option.none => []) ++
  (match o.filter with
    | some fv => [("filter", PyValue.tuple [fv.1, fv.2])] | Option.none => []) ++
  (match o.incl with | some xs => [("include", PyValue.list xs)] | Option.none => []) ++
  (match o.sort with | some s => [("sort", PyValue.str s)] | Option.none => [])

/-- Spec-side clause list (section 4.2 of the spec, the table plus its fixed
order note): clauses in the fixed order page, per_page, filter, include, sort;
a supplied falsy option produces nothing; empty `include` entries are dropped
before comma-joining, and the clause is omitted when nothing remains. -/
def spec_clauses (o : QueryOptions) : List String :=
  (match o.page with
    | some n => if n ≠ 0 then ["page=" ++ toString n] else []
    | Option.none => []) ++
  (match o.per_page with
    | some n => if n ≠ 0 then ["per_page=" ++ toString n] else []
    | Option.none => []) ++
  (match o.filter with
    | some fv => ["filter[" ++ fv.1 ++ "]=" ++ fv.2]
    | Option.none => []) ++
  (match o.incl with
    | some xs =>
        let xs' := xs.filter (fun i => i ≠ "")
        if xs' ≠ [] then ["include=" ++ strJoin "," xs'] else []
    | Option.none => []) ++
  (match o.sort with
    | some s => if s ≠ "" then ["sort=" ++ s] else []
    | Option.none => [])

/-- Spec-side rendering: empty string when no clause was produced, otherwise
`?` followed by the `&`-joined clauses. -/
def spec_render (cs : List String) : String :=
  if cs.isEmpty then "" else "?" ++ strJoin "&" cs

/-- `c` occurs inside `s` (the query string contains the clause). -/
def contains_clause (s c : String) : Prop :=
  ∃ pre post : List Char, s.data = pre ++ c.data ++ post

/-- JSON values, for decoded response bodies and `receive` payloads. -/
inductive Json where
  | null
  | bool (b : Bool)
  | num (n : Int)
  | str (s : String)
  | arr (xs : List Json)
  | obj (fields : List (String × Json))

/-- First binding of a key in a decoded JSON object. -/
def lookupJson : List (String × Json) → String → Option Json
  | [], _ => Option.none
  | (k', v) :: rest, k => if k' = k then some v else lookupJson rest k

/-- `err['errors'][0]['code']` (line 112): `some code` when the decoded body
has the documented error shape, `none` when any lookup or index fails. -/
def extract_error_code (err : Json) : Option Json :=
  match err with
  | Json.obj fields =>
      match lookupJson fields "errors" with
      | some (Json.arr (e0 :: _)) =>
          match e0 with
          | Json.obj efields => lookupJson efields "code"
          | _ => Option.none
      | _ => Option.none
  | _ => Option.none

/-- The HTTP response as `_make` observes it: the status code, and the decoded
JSON body when `response.json()` succeeds (`none` models a body that is not
JSON, where `response.json()` raises). -/
structure Response where
  status : Nat
  jsonBody : Option Json

/-- The environment of one `_make` call: the two wall-clock readings taken at
lines 87 and 92 (`time()` before the request and when response headers
arrive), and the response the server produces. -/
structure World where
  t0 : Nat
  t1 : Nat
  response : Response

/-- The request body selected at lines 66-78: the raw override used verbatim,
or the JSON serialization of the remaining entries (the serialized dict is
kept structured here). -/
inductive Body where
  | raw (v : PyValue)
  | json (entries : Params)

/-- Observable steps of one `_make` call, in order: debug emissions, session
lifecycle, the outbound request, the `receive` emission, and each subscriber
callback run (with whether it returned normally). -/
inductive Event where
  | debug (msg : String)
  | sessionOpen
  | httpRequest (method url : String) (body : Option Body)
  | sessionClose
  | receiveEmit (payload : Json)
  | callbackRun (event : String) (idx : Nat) (ok : Bool)

/-- How a `_make` call ends: a returned payload (`ok none` is the 204 `None`
return), one of the library's raised errors, or a raised builtin
(`valueError` for the method check; `jsonError` models the decode error
`response.json()` raises on a non-JSON body; `keyError` models the
KeyError/IndexError/TypeError from `err['errors'][0]['code']`). -/
inductive MakeResult where
  | ok (payload : Option Json)
  | pteroAPIError (code : Json) (body : Json)
  | requestError (status : Nat)
  | valueError (msg : String)
  | validationError (msg : String)
  | typeError
  | jsonError
  | keyError

/-- A `_validate_query` exception as `_make` surfaces it. -/
def err_result : PyErr → MakeResult
  | PyErr.validationError m => MakeResult.validationError m
  | PyErr.typeError => MakeResult.typeError

/-- A subscriber callback: consumes the payload and either returns normally or
raises. -/
abbrev Callback (α : Type) := α → Except String Unit

/-- `RequestManager` state (lines 10-16): connection identity, the `ping`
latency field (`-1.0` sentinel, modelled over `Int`), and the event slots the
inherited `EventManager` holds for the `receive` and `debug` events. -/
structure RequestManager where
  _type : String
  domain : String
  auth : String
  suspended : Bool
  ping : Int
  receive_slots : List (Callback Json)
  debug_slots : List (Callback String)

/-- `RequestManager.__init__` (lines 10-16); the `EventManager` base starts
with no registered slots. -/
def RequestManager.init (_type domain auth : String) : RequestManager :=
  { _type := _type, domain := domain, auth := auth, suspended := false,
    ping := -1, receive_slots := [], debug_slots := [] }

/-- `on_receive` (lines 139-144). Modelled from the spec: `add_event_slot`
lives in `events.py`, which is not under `src/`; section 4.1 of the spec says
subscription appends the callback to the ordered list for the event. -/
def on_receive (rm : RequestManager) (f : Callback Json) : RequestManager :=
  { rm with receive_slots := rm.receive_slots ++ [f] }

/-- `on_debug` (lines 146-148), modelled from the spec like `on_receive`. -/
def on_debug (rm : RequestManager) (f : Callback String) : RequestManager :=
  { rm with debug_slots := rm.debug_slots ++ [f] }

/-- Whether a callback returned normally. -/
def except_ok : Except String Unit → Bool
  | Except.ok _ => true
  | Except.error _ => false

/-- Modelled from the spec: `EventManager.emit_event` (`events.py` is not
under `src/`).  Section 4.1: every currently-registered callback for the event
runs in registration order with the payload, each invocation individually
contained so a failing callback neither aborts emission to later callbacks nor
propagates to the emitter.  The model records one `callbackRun` event per
subscriber. -/
def emit_runs {α : Type} (name : String) (slots : List (Callback α)) (payload : α) :
    List Event :=
  slots.enum.map (fun p => Event.callbackRun name p.1 (except_ok (p.2 payload)))

/-- `__debug` (lines 133-137): emits the `debug` event with the prefixed
message; the surrounding try/except plus the per-callback containment of
`emit_event` make the emission best-effort. -/
def emit_debug (rm : RequestManager) (message : String) : List Event :=
  Event.debug ("[debug] " ++ message) :: emit_runs "debug" rm.debug_slots ("[debug] " ++ message)

/-- `get_headers` (lines 18-29); with string-typed identity the two `None`
guards cannot fire. -/
def get_headers (rm : RequestManager) : List (String × String) :=
  [("User-Agent", rm._type ++ " Pytero v0.1.0"),
   ("Content-Type", "application/json"),
   ("Accept", "application/json"),
   ("Authorization", "Bearer " ++ rm.auth)]

/-- `str.lower()`, character-wise (the API family tags are ASCII). -/
def str_lower (s : String) : String := String.mk (s.data.map Char.toLower)

/-- The five query-related keys stripped from the body dict (line 73). -/
def query_keys : List String := ["page", "per_page", "filter", "include", "sort"]

/-- Lines 72-74: `copy = dict(params)` followed by popping the five query
keys; the caller's dict is untouched. -/
def strip_query_keys (params : Params) : Params :=
  params.filter (fun kv => !(query_keys.contains kv.1))

/-- Body selection (lines 66-78): a truthy `raw` entry is used verbatim;
otherwise the stripped copy is JSON-serialized when nonempty, and the body
stays absent when nothing remains.  Returns the body and the debug events
emitted while choosing it. -/
def select_body (rm : RequestManager) (params : Params) : Option Body × List Event :=
  let rawv := dict_get params "raw"
  if truthy rawv then (some (Body.raw rawv), emit_debug rm "sending raw byte payload")
  else
    let copy := strip_query_keys params
    if copy.isEmpty then (Option.none, [])
    else (some (Body.json copy), emit_debug rm "sending json payload")

/-- Outcome of one `_make` call: its result, the manager state afterwards, the
ordered observable events, and the caller's params dict afterwards. -/
structure MakeOutcome where
  result : MakeResult
  finalState : RequestManager
  trace : List Event
  finalParams : Params

/-- Status classification (lines 98-116), run with `ping` already updated. -/
def classify (rm' : RequestManager) (resp : Response) (tr : List Event) (params : Params) :
    MakeOutcome :=
  if resp.status = 204 then
    { result := MakeResult.ok Option.none, finalState := rm', trace := tr,
      finalParams := params }
  else if resp.status = 200 ∨ resp.status = 201 then
    match resp.jsonBody with
    | Option.none =>
        { result := MakeResult.jsonError, finalState := rm', trace := tr,
          finalParams := params }
    | some d =>
        { result := MakeResult.ok (some d), finalState := rm',
          trace := tr ++ Event.receiveEmit d :: emit_runs "receive" rm'.receive_slots d,
          finalParams := params }
  else if 400 ≤ resp.status ∧ resp.status < 500 then
    match resp.jsonBody with
    | Option.none =>
        { result := MakeResult.jsonError, finalState := rm', trace := tr,
          finalParams := params }
    | some err =>
        match extract_error_code err with
        | some code =>
            { result := MakeResult.pteroAPIError code err, finalState := rm', trace := tr,
              finalParams := params }
        | Option.none =>
            { result := MakeResult.keyError, finalState := rm', trace := tr,
              finalParams := params }
  else
    { result := MakeResult.requestError resp.status, finalState := rm', trace := tr,
      finalParams := params }

/-- Lines 81-116: URL construction, the session and request with their debug
emissions, the `ping` update when headers arrive, and classification. -/
def exchange (rm : RequestManager) (w : World) (path method : String) (params : Params)
    (bd : Option Body × List Event) (qs : String) : MakeOutcome :=
  let url := rm.domain ++ "/api/" ++ str_lower rm._type ++ path ++ qs
  let tr1 := bd.2 ++ emit_debug rm "attempting to start session" ++ [Event.sessionOpen]
      ++ emit_debug rm ("attemping to perform request to " ++ url)
      ++ [Event.httpRequest method url bd.1]
  let rm' := { rm with ping := (w.t1 : Int) - (w.t0 : Int) }
  let tr2 := tr1 ++ emit_debug rm "ensuring session close before continuing"
      ++ [Event.sessionClose]
      ++ emit_debug rm ("received status: " ++ toString w.response.status)
  classify rm' w.response tr2 params

/-- The methods line 63 accepts. -/
def allowedMethods : List String := ["GET", "POST", "PATCH", "PUT", "DELETE"]

/-- `RequestManager._make` (lines 62-116): method check, body selection,
query validation, then the exchange.  A `_validate_query` exception surfaces
after the body-selection debug events and before any session is opened. -/
def _make (rm : RequestManager) (w : World) (path method : String) (params : Params) :
    MakeOutcome :=
  if method ∈ allowedMethods then
    match validate_query params with
    | Except.error e =>
        { result := err_result e, finalState := rm,
          trace := (select_body rm params).2, finalParams := params }
    | Except.ok qs => exchange rm w path method params (select_body rm params) qs
  else
    { result := MakeResult.valueError ("invalid http method '" ++ method ++ "'"),
      finalState := rm, trace := [], finalParams := params }

/-- `rget` (lines 118-119). -/
def rget (rm : RequestManager) (w : World) (path : String) (data : Params) : MakeOutcome :=
  _make rm w path "GET" data

/-- `rpost` (lines 121-122). -/
def rpost (rm : RequestManager) (w : World) (path : String) (data : Params) : MakeOutcome :=
  _make rm w path "POST" data

/-- `rpatch` (lines 124-125). -/
def rpatch (rm : RequestManager) (w : World) (path : String) (data : Params) : MakeOutcome :=
  _make rm w path "PATCH" data

/-- `rput` (lines 127-128). -/
def rput (rm : RequestManager) (w : World) (path : String) (data : Params) : MakeOutcome :=
  _make rm w path "PUT" data

/-- `rdelete` (lines 130-131): no keyword parameters. -/
def rdelete (rm : RequestManager) (w : World) (path : String) : MakeOutcome :=
  _make rm w path "DELETE" []

/-- Recognizer for `receiveEmit` events. -/
def is_receive_emit : Event → Bool
  | Event.receiveEmit _ => true
  | _ => false

/-- Recognizer for subscriber runs of the `receive` event. -/
def is_receive_run : Event → Bool
  | Event.callbackRun n _ _ => n = "receive"
  | _ => false

/-- Recognizer for the outbound request event. -/
def is_http_request : Event → Bool
  | Event.httpRequest _ _ _ => true
  | _ => false

/-- Recognizer for the session-open event. -/
def is_session_open : Event → Bool
  | Event.sessionOpen => true
  | _ => false

/-- A concrete manager used to evaluate the theorems on closed inputs. -/
def sample_rm : RequestManager :=
  RequestManager.init "Application" "https://panel.example" "token"

/-- A decoded 4xx body of the documented error shape. -/
def sample_err : Json :=
  Json.obj [("errors", Json.arr [Json.obj [("code", Json.str "NotFound")]])]

/-- A decoded success payload. -/
def sample_payload : Json := Json.obj [("id", Json.num 1)]

/-- A manager with two `receive` subscribers, registered in order: the first
raises on every payload, the second returns normally. -/
def sample_rm_two_subs : RequestManager :=
  on_receive (on_receive sample_rm (fun _ => Except.error "boom"))
    (fun _ => Except.ok ())

theorem get_toParams_page (o : QueryOptions) :
    dict_get o.toParams "page"
      = (match o.page with | some n => PyValue.int n | Option.none => PyValue.none) := by
  obtain ⟨pg, pp, fl, ic, so⟩ := o
  cases pg <;> cases pp <;> cases fl <;> cases ic <;> cases so <;> rfl

theorem get_toParams_per_page (o : QueryOptions) :
    dict_get o.toParams "per_page"
      = (match o.per_page with | some n => PyValue.int n | Option.none => PyValue.none) := by
  obtain ⟨pg, pp, fl, ic, so⟩ := o
  cases pg <;> cases pp <;> cases fl <;> cases ic <;> cases so <;> rfl

theorem get_toParams_filter (o : QueryOptions) :
    dict_get o.toParams "filter"
      = (match o.filter with
          | some fv => PyValue.tuple [fv.1, fv.2] | Option.none => PyValue.none) := by
  obtain ⟨pg, pp, fl, ic, so⟩ := o
  cases pg <;> cases pp <;> cases fl <;> cases ic <;> cases so <;> rfl

theorem get_toParams_include (o : QueryOptions) :
    dict_get o.toParams "include"
      = (match o.incl with | some xs => PyValue.list xs | Option.none => PyValue.none) := by
  obtain ⟨pg, pp, fl, ic, so⟩ := o
  cases pg <;> cases pp <;> cases fl <;> cases ic <;> cases so <;> rfl

theorem get_toParams_sort (o : QueryOptions) :
    dict_get o.toParams "sort"
      = (match o.sort with | some s => PyValue.str s | Option.none => PyValue.none) := by
  obtain ⟨pg, pp, fl, ic, so⟩ := o
  cases pg <;> cases pp <;> cases fl <;> cases ic <;> cases so <;> rfl

theorem toParams_keys_nodup (o : QueryOptions) : (o.toParams.map Prod.fst).Nodup := by
  obtain ⟨pg, pp, fl, ic, so⟩ := o
  cases pg <;> cases pp <;> cases fl <;> cases ic <;> cases so <;>
    simp [QueryOptions.toParams]

theorem get_perm_eq : ∀ {l l' : Params}, l.Perm l' → (l.map Prod.fst).Nodup →
    ∀ k, dict_get l k = dict_get l' k := by
  intro l l' h
  induction h with
  | nil => intro _ _; rfl
  | cons x h ih =>
      obtain ⟨kx, vx⟩ := x
      intro hnd k
      simp only [List.map_cons, List.nodup_cons] at hnd
      by_cases hk : kx = k
      · simp [dict_get, hk]
      · simp only [dict_get, if_neg hk]
        exact ih hnd.2 k
  | swap x y l =>
      obtain ⟨kx, vx⟩ := x
      obtain ⟨ky, vy⟩ := y
      intro hnd k
      simp only [List.map_cons, List.nodup_cons, List.mem_cons] at hnd
      by_cases h1 : ky = k <;> by_cases h2 : kx = k
      · exact absurd (Or.inl (h1.trans h2.symm)) hnd.1
      · simp [dict_get, h1, h2]
      · simp [dict_get, h1, h2]
      · simp [dict_get, h1, h2]
  | trans h1 h2 ih1 ih2 =>
      intro hnd k
      rw [ih1 hnd k, ih2 ((h1.map Prod.fst).nodup hnd) k]

theorem validate_query_ext {q q' : Params} (h : ∀ k, dict_get q k = dict_get q' k) :
    validate_query q = validate_query q' := by
  simp only [validate_query, query_clauses, clause_page, clause_per_page, clause_filter,
    clause_include, clause_sort, h]

theorem clause_page_toParams (o : QueryOptions) :
    clause_page o.toParams =
      (match o.page with
        | Option.none => Except.ok []
        | some n =>
            if n = 0 then Except.ok []
            else if 1 < n ∧ 50 < n then
              Except.error (PyErr.validationError "page number must be between 1 and 50")
            else Except.ok ["page=" ++ toString n]) := by
  unfold clause_page
  rw [get_toParams_page]
  cases o.page with
  | none => rfl
  | some n =>
      by_cases h0 : n = 0
      · subst h0; rfl
      · simp [truthy, h0]

theorem clause_per_page_toParams (o : QueryOptions) :
    clause_per_page o.toParams =
      (match o.per_page with
        | Option.none => Except.ok []
        | some n =>
            if n = 0 then Except.ok []
            else if 1 < n ∧ 100 < n then
              Except.error (PyErr.validationError "per_page number must be between 1 and 100")
            else Except.ok ["per_page=" ++ toString n]) := by
  unfold clause_per_page
  rw [get_toParams_per_page]
  cases o.per_page with
  | none => rfl
  | some n =>
      by_cases h0 : n = 0
      · subst h0; rfl
      · simp [truthy, h0]

theorem clause_filter_toParams (o : QueryOptions) :
    clause_filter o.toParams =
      (match o.filter with
        | Option.none => Except.ok []
        | some fv => Except.ok ["filter[" ++ fv.1 ++ "]=" ++ fv.2]) := by
  unfold clause_filter
  rw [get_toParams_filter]
  cases o.filter with
  | none => rfl
  | some fv => rfl

theorem clause_include_toParams (o : QueryOptions) :
    clause_include o.toParams =
      (match o.incl with
        | Option.none => Except.ok []
        | some xs =>
            Except.ok
              (if xs.filter (fun i => i ≠ "") ≠ [] then
                ["include=" ++ strJoin "," (xs.filter (fun i => i ≠ ""))]
              else [])) := by
  unfold clause_include
  rw [get_toParams_include]
  cases o.incl with
  | none => rfl
  | some xs =>
      cases xs with
      | nil => rfl
      | cons x rest =>
          simp only [truthy, List.isEmpty_cons, Bool.not_false, if_true, seqElems]
          by_cases hx : (x :: rest).filter (fun i => i ≠ "") = []
          · have hlen : ((x :: rest).filter (fun i => i ≠ "")).length = 0 := by
              rw [hx]; rfl
            rw [if_neg (fun h => h hlen), if_neg (not_not_intro hx)]
          · have hlen : ((x :: rest).filter (fun i => i ≠ "")).length ≠ 0 := by
              intro h0
              exact hx (List.length_eq_zero.1 h0)
            rw [if_pos hlen, if_pos hx]

theorem clause_sort_toParams (o : QueryOptions) :
    clause_sort o.toParams =
      (match o.sort with
        | Option.none => Except.ok []
        | some s => Except.ok (if s ≠ "" then ["sort=" ++ s] else [])) := by
  unfold clause_sort
  rw [get_toParams_sort]
  cases o.sort with
  | none => rfl
  | some s =>
      by_cases hs : s = ""
      · subst hs; rfl
      · simp [truthy, hs]

theorem query_clauses_toParams (o : QueryOptions)
    (hp : ∀ n ∈ o.page, ¬(1 < n ∧ 50 < n))
    (hpp : ∀ n ∈ o.per_page, ¬(1 < n ∧ 100 < n)) :
    query_clauses o.toParams = Except.ok (spec_clauses o) := by
  have h1 : clause_page o.toParams =
      Except.ok (match o.page with
        | some n => if n ≠ 0 then ["page=" ++ toString n] else []
        | Option.none => []) := by
    rw [clause_page_toParams]
    cases hpg : o.page with
    | none => rfl
    | some n =>
        have hbad := hp n (by simp [hpg])
        by_cases h0 : n = 0 <;> simp [h0, hbad]
  have h2 : clause_per_page o.toParams =
      Except.ok (match o.per_page with
        | some n => if n ≠ 0 then ["per_page=" ++ toString n] else []
        | Option.none => []) := by
    rw [clause_per_page_toParams]
    cases hpg : o.per_page with
    | none => rfl
    | some n =>
        have hbad := hpp n (by simp [hpg])
        by_cases h0 : n = 0 <;> simp [h0, hbad]
  unfold query_clauses spec_clauses
  rw [h1, h2, clause_filter_toParams, clause_include_toParams, clause_sort_toParams]
  cases o.page <;> cases o.per_page <;> cases o.filter <;> cases o.incl <;> cases o.sort <;>
    rfl

theorem validate_query_toParams (o : QueryOptions)
    (hp : ∀ n ∈ o.page, ¬(1 < n ∧ 50 < n))
    (hpp : ∀ n ∈ o.per_page, ¬(1 < n ∧ 100 < n)) :
    validate_query o.toParams = Except.ok (render (spec_clauses o)) := by
  unfold validate_query
  rw [query_clauses_toParams o hp hpp]

theorem render_eq_spec_render (cs : List String) : render cs = spec_render cs := by
  cases cs with
  | nil => rfl
  | cons r rest =>
      cases rest with
      | nil => simp [render, spec_render, strJoin]
      | cons y ys => simp [render, spec_render, strJoin, String.append_assoc]

theorem strJoin_mem_decomp (sep : String) {c : String} {cs : List String} (h : c ∈ cs) :
    ∃ pre post : List Char, (strJoin sep cs).data = pre ++ c.data ++ post := by
  induction cs with
  | nil => cases h
  | cons x rest ih =>
      cases rest with
      | nil =>
          have hx : c = x := by simpa using h
          subst hx
          exact ⟨[], [], by simp [strJoin]⟩
      | cons y ys =>
          rcases List.mem_cons.1 h with rfl | hmem
          · exact ⟨[], sep.data ++ (strJoin sep (y :: ys)).data,
              by simp [strJoin, String.data_append, List.append_assoc]⟩
          · obtain ⟨pre, post, heq⟩ := ih hmem
            exact ⟨x.data ++ sep.data ++ pre, post,
              by simp [strJoin, String.data_append, heq, List.append_assoc]⟩

theorem render_contains {c : String} {cs : List String} (h : c ∈ cs) :
    contains_clause (render cs) c := by
  rw [render_eq_spec_render]
  cases cs with
  | nil => cases h
  | cons x rest =>
      obtain ⟨pre, post, heq⟩ := strJoin_mem_decomp "&" h
      refine ⟨'?' :: pre, post, ?_⟩
      simp [spec_render, String.data_append, heq]

/-- C1: as stated the claim fails on the code: the guard `1 < p > 50` never
rejects values below the range, so `page = -3` (outside `[1,50]`) does not
raise `ValidationError`; `_validate_query` succeeds and emits `page=-3`. -/
theorem c1_counterexample :
    validate_query [("page", PyValue.int (-3))] = Except.ok "?page=-3" := rfl

/-- C1 (amended): for every query-options record, `_validate_query` succeeds
when every supplied `page` is in `[1,50]` and every supplied `per_page` is in
`[1,100]`, with the result containing the clauses `page=n` and `per_page=n`;
`ValidationError` is raised exactly for a supplied `page` above 50 (or, when
the page check passes, a supplied `per_page` above 100) — values below the
range are not rejected. -/
theorem c1_amended_thm (o : QueryOptions) :
    ((∀ n ∈ o.page, 1 ≤ n ∧ n ≤ 50) → (∀ n ∈ o.per_page, 1 ≤ n ∧ n ≤ 100) →
      ∃ s, validate_query o.toParams = Except.ok s ∧
        (∀ n ∈ o.page, contains_clause s ("page=" ++ toString n)) ∧
        (∀ n ∈ o.per_page, contains_clause s ("per_page=" ++ toString n)))
    ∧ (∀ n ∈ o.page, 50 < n →
        validate_query o.toParams
          = Except.error (PyErr.validationError "page number must be between 1 and 50"))
    ∧ (∀ n ∈ o.per_page, 100 < n → (∀ m ∈ o.page, m ≤ 50) →
        validate_query o.toParams
          = Except.error (PyErr.validationError "per_page number must be between 1 and 100")) := by
  refine ⟨?_, ?_, ?_⟩
  · intro hp hpp
    have hp' : ∀ n ∈ o.page, ¬(1 < n ∧ 50 < n) := by
      intro n hn
      have := hp n hn
      omega
    have hpp' : ∀ n ∈ o.per_page, ¬(1 < n ∧ 100 < n) := by
      intro n hn
      have := hpp n hn
      omega
    refine ⟨render (spec_clauses o), validate_query_toParams o hp' hpp', ?_, ?_⟩
    · intro n hn
      apply render_contains
      have h1 := (hp n hn).1
      have hmem : ("page=" ++ toString n) ∈
          (match o.page with
            | some m => if m ≠ 0 then ["page=" ++ toString m] else []
            | Option.none => ([] : List String)) := by
        rw [Option.mem_def] at hn
        simp [hn, show n ≠ 0 by omega]
      unfold spec_clauses
      exact List.mem_append_left _ (List.mem_append_left _ (List.mem_append_left _
        (List.mem_append_left _ hmem)))
    · intro n hn
      apply render_contains
      have h1 := (hpp n hn).1
      have hmem : ("per_page=" ++ toString n) ∈
          (match o.per_page with
            | some m => if m ≠ 0 then ["per_page=" ++ toString m] else []
            | Option.none => ([] : List String)) := by
        rw [Option.mem_def] at hn
        simp [hn, show n ≠ 0 by omega]
      unfold spec_clauses
      exact List.mem_append_left _ (List.mem_append_left _ (List.mem_append_left _
        (List.mem_append_right _ hmem)))
  · intro n hn hbig
    rw [Option.mem_def] at hn
    unfold validate_query query_clauses
    rw [clause_page_toParams]
    simp [hn, show ¬ n = 0 by omega, show 1 < n ∧ 50 < n by omega, Except.bind]
  · intro n hn hbig hpageok
    rw [Option.mem_def] at hn
    have h1 : clause_page o.toParams =
        Except.ok (match o.page with
          | some m => if m ≠ 0 then ["page=" ++ toString m] else []
          | Option.none => []) := by
      rw [clause_page_toParams]
      cases hpg : o.page with
      | none => rfl
      | some m =>
          have hm := hpageok m (by simp [hpg])
          by_cases h0 : m = 0 <;> simp [h0, show ¬(1 < m ∧ 50 < m) by omega]
    unfold validate_query query_clauses
    rw [h1, clause_per_page_toParams]
    simp [hn, show ¬ n = 0 by omega, show 1 < n ∧ 100 < n by omega, Except.bind]

theorem c1_amended_witness :
    ∃ s, validate_query
        (QueryOptions.mk (some 2) (some 100) Option.none Option.none Option.none).toParams
        = Except.ok s ∧
      contains_clause s ("page=" ++ toString (2 : Int)) ∧
      contains_clause s ("per_page=" ++ toString (100 : Int)) := by
  obtain ⟨s, hs, hpg, hpp⟩ :=
    (c1_amended_thm (QueryOptions.mk (some 2) (some 100) Option.none Option.none Option.none)).1
      (by intro n hn; rw [Option.mem_def] at hn; injection hn with h; omega)
      (by intro n hn; rw [Option.mem_def] at hn; injection hn with h; omega)
  exact ⟨s, hs, hpg 2 rfl, hpp 100 rfl⟩

/-- C4: for every accepted query-options record, however the options were
ordered when supplied, `_validate_query` produces the clauses in the fixed
order page, per_page, filter, include, sort; empty strings in the include
sequence are dropped before comma-joining and the clause is omitted when
nothing remains; zero clauses give the empty string, otherwise the result is
`?` followed by the `&`-joined clauses (refinement against the spec-side
`spec_clauses`/`spec_render`). -/
theorem c4_thm (o : QueryOptions) (q : Params) (hperm : q.Perm o.toParams)
    (hp : ∀ n ∈ o.page, ¬(1 < n ∧ 50 < n))
    (hpp : ∀ n ∈ o.per_page, ¬(1 < n ∧ 100 < n)) :
    validate_query q = Except.ok (spec_render (spec_clauses o)) := by
  have hnd : (q.map Prod.fst).Nodup :=
    (hperm.symm.map Prod.fst).nodup (toParams_keys_nodup o)
  have hext : ∀ k, dict_get q k = dict_get o.toParams k := get_perm_eq hperm hnd
  rw [validate_query_ext hext, validate_query_toParams o hp hpp, render_eq_spec_render]

theorem c4_witness :
    validate_query [("sort", PyValue.str "-name"), ("page", PyValue.int 2)]
      = Except.ok "?page=2&sort=-name" := by
  have h := c4_thm
    (QueryOptions.mk (some 2) Option.none Option.none Option.none (some "-name"))
    [("sort", PyValue.str "-name"), ("page", PyValue.int 2)]
    (by decide)
    (by intro n hn; rw [Option.mem_def] at hn; injection hn with h; omega)
    (by intro n hn; rw [Option.mem_def] at hn; cases hn)
  exact h.trans (by rfl)

/-- C10: a falsy supplied value for any of the five options (0 for the pages,
an empty sequence for filter or include, the empty string for sort, `None`)
produces no clause and no `ValidationError`; in particular `page=0` and
`per_page=0` are silently skipped. -/
theorem c10_thm (q : Params) :
    (truthy (dict_get q "page") = false → clause_page q = Except.ok [])
    ∧ (truthy (dict_get q "per_page") = false → clause_per_page q = Except.ok [])
    ∧ (truthy (dict_get q "filter") = false → clause_filter q = Except.ok [])
    ∧ (truthy (dict_get q "include") = false → clause_include q = Except.ok [])
    ∧ (truthy (dict_get q "sort") = false → clause_sort q = Except.ok [])
    ∧ validate_query [("page", PyValue.int 0), ("per_page", PyValue.int 0)]
        = Except.ok "" := by
  refine ⟨?_, ?_, ?_, ?_, ?_, rfl⟩ <;>
    (intro h; simp only [clause_page, clause_per_page, clause_filter, clause_include,
      clause_sort, h]; rfl)

theorem c10_witness :
    clause_page [("page", PyValue.int 0)] = Except.ok []
    ∧ clause_include [("include", PyValue.list [])] = Except.ok [] := by
  exact ⟨(c10_thm [("page", PyValue.int 0)]).1 rfl,
    (c10_thm [("include", PyValue.list [])]).2.2.2.1 rfl⟩

theorem make_eq_exchange {rm : RequestManager} {w : World} {path method : String}
    {params : Params} {qs : String} (hm : method ∈ allowedMethods)
    (hq : validate_query params = Except.ok qs) :
    _make rm w path method params
      = exchange rm w path method params (select_body rm params) qs := by
  unfold _make
  rw [if_pos hm, hq]

theorem filter_emit_runs_eq_nil {α : Type} {p : Event → Bool} {name : String}
    (hp : ∀ i b, p (Event.callbackRun name i b) = false)
    (slots : List (Callback α)) (x : α) : (emit_runs name slots x).filter p = [] := by
  rw [List.filter_eq_nil_iff]
  intro a ha
  unfold emit_runs at ha
  obtain ⟨⟨i, c⟩, _, rfl⟩ := List.mem_map.1 ha
  simp [hp]

theorem filter_emit_debug_eq_nil {p : Event → Bool}
    (hd : ∀ m, p (Event.debug m) = false)
    (hp : ∀ i b, p (Event.callbackRun "debug" i b) = false)
    (rm : RequestManager) (m : String) : (emit_debug rm m).filter p = [] := by
  unfold emit_debug
  simp [List.filter_cons, hd, filter_emit_runs_eq_nil hp]

theorem filter_select_body_eq_nil {p : Event → Bool}
    (hd : ∀ m, p (Event.debug m) = false)
    (hp : ∀ i b, p (Event.callbackRun "debug" i b) = false)
    (rm : RequestManager) (params : Params) :
    ((select_body rm params).2).filter p = [] := by
  unfold select_body
  by_cases h : truthy (dict_get params "raw")
  · simp [h, filter_emit_debug_eq_nil hd hp]
  · by_cases h2 : (strip_query_keys params).isEmpty
    · simp [h, h2]
    · simp [h, h2, filter_emit_debug_eq_nil hd hp]

theorem runs_receive_run_self (slots : List (Callback Json)) (d : Json) :
    (emit_runs "receive" slots d).filter is_receive_run = emit_runs "receive" slots d := by
  rw [List.filter_eq_self]
  intro a ha
  unfold emit_runs at ha
  obtain ⟨⟨i, c⟩, _, rfl⟩ := List.mem_map.1 ha
  rfl

theorem classify_finalState (rm' : RequestManager) (resp : Response) (tr : List Event)
    (params : Params) : (classify rm' resp tr params).finalState = rm' := by
  unfold classify
  (repeat' split) <;> rfl

theorem classify_finalParams (rm' : RequestManager) (resp : Response) (tr : List Event)
    (params : Params) : (classify rm' resp tr params).finalParams = params := by
  unfold classify
  (repeat' split) <;> rfl

theorem classify_trace_filter_http (rm' : RequestManager) (resp : Response)
    (tr : List Event) (params : Params) :
    ((classify rm' resp tr params).trace).filter is_http_request
      = tr.filter is_http_request := by
  unfold classify
  (repeat' split) <;>
    simp [List.filter_append, List.filter_cons, is_http_request,
      filter_emit_runs_eq_nil (p := is_http_request) (fun _ _ => rfl)]

/-- C2: as stated the claim fails on the code: a 4xx response whose body is
not JSON does not raise `RequestError`; `response.json()` raises its own
decode error, which propagates (modelled as `jsonError`). -/
theorem c2_counterexample :
    (_make (RequestManager.init "Application" "https://panel.example" "token")
        ⟨0, 1, ⟨404, Option.none⟩⟩ "/users" "GET" []).result = MakeResult.jsonError
    ∧ (_make (RequestManager.init "Application" "https://panel.example" "token")
        ⟨0, 1, ⟨404, Option.none⟩⟩ "/users" "GET" []).result
        ≠ MakeResult.requestError 404 :=
  ⟨rfl, fun h => nomatch h⟩

/-- C2 (amended): for every completed exchange whose status is neither 204 nor
200/201: a status in `[400,500)` whose body decodes to the documented shape
raises `PteroAPIError` carrying `errors[0].code` and the full decoded body; a
status in `[400,500)` with a non-JSON body propagates the JSON decode error
(not `RequestError`); any other status (3xx, 5xx) raises `RequestError`
carrying the raw status code. -/
theorem c2_amended_thm (rm : RequestManager) (w : World) (path method : String)
    (params : Params) (qs : String) (hm : method ∈ allowedMethods)
    (hq : validate_query params = Except.ok qs) :
    (∀ err code, 400 ≤ w.response.status → w.response.status < 500 →
      w.response.jsonBody = some err → extract_error_code err = some code →
      (_make rm w path method params).result = MakeResult.pteroAPIError code err)
    ∧ (400 ≤ w.response.status → w.response.status < 500 →
      w.response.jsonBody = Option.none →
      (_make rm w path method params).result = MakeResult.jsonError)
    ∧ (w.response.status ≠ 204 → w.response.status ≠ 200 → w.response.status ≠ 201 →
      ¬(400 ≤ w.response.status ∧ w.response.status < 500) →
      (_make rm w path method params).result = MakeResult.requestError w.response.status) := by
  rw [make_eq_exchange hm hq]
  unfold exchange classify
  refine ⟨?_, ?_, ?_⟩
  · intro err code h4 h5 hb hc
    rw [if_neg (by omega), if_neg (by omega), if_pos ⟨h4, h5⟩]
    simp [hb, hc]
  · intro h4 h5 hb
    rw [if_neg (by omega), if_neg (by omega), if_pos ⟨h4, h5⟩]
    simp [hb]
  · intro h204 h200 h201 h4xx
    rw [if_neg h204, if_neg (by omega), if_neg h4xx]

theorem c2_amended_witness :
    (_make sample_rm ⟨0, 1, ⟨404, some sample_err⟩⟩ "/users" "GET" []).result
      = MakeResult.pteroAPIError (Json.str "NotFound") sample_err
    ∧ (_make sample_rm ⟨0, 1, ⟨503, Option.none⟩⟩ "/users" "GET" []).result
      = MakeResult.requestError 503 := by
  constructor
  · exact (c2_amended_thm sample_rm ⟨0, 1, ⟨404, some sample_err⟩⟩ "/users" "GET" [] ""
      (by decide) rfl).1 sample_err (Json.str "NotFound") (by decide) (by decide) rfl rfl
  · exact (c2_amended_thm sample_rm ⟨0, 1, ⟨503, Option.none⟩⟩ "/users" "GET" [] ""
      (by decide) rfl).2.2 (by decide) (by decide) (by decide) (by decide)

/-- C3: for every completed exchange, a 204 returns `None` with no `receive`
emission (neither the emission itself nor any subscriber run), and a 200/201
whose body decodes emits exactly one `receive` event carrying the decoded
payload and returns that payload. -/
theorem c3_thm (rm : RequestManager) (w : World) (path method : String)
    (params : Params) (qs : String) (hm : method ∈ allowedMethods)
    (hq : validate_query params = Except.ok qs) :
    (w.response.status = 204 →
      (_make rm w path method params).result = MakeResult.ok Option.none
      ∧ (_make rm w path method params).trace.filter is_receive_emit = []
      ∧ (_make rm w path method params).trace.filter is_receive_run = [])
    ∧ (∀ d, (w.response.status = 200 ∨ w.response.status = 201) →
      w.response.jsonBody = some d →
      (_make rm w path method params).result = MakeResult.ok (some d)
      ∧ (_make rm w path method params).trace.filter is_receive_emit
          = [Event.receiveEmit d]) := by
  rw [make_eq_exchange hm hq]
  unfold exchange classify
  constructor
  · intro h204
    rw [if_pos h204]
    refine ⟨rfl, ?_, ?_⟩ <;>
      simp [List.filter_append, List.filter_cons, is_receive_emit, is_receive_run,
        filter_select_body_eq_nil (p := is_receive_emit) (fun _ => rfl) (fun _ _ => rfl),
        filter_select_body_eq_nil (p := is_receive_run) (fun _ => rfl) (fun _ _ => rfl),
        filter_emit_debug_eq_nil (p := is_receive_emit) (fun _ => rfl) (fun _ _ => rfl),
        filter_emit_debug_eq_nil (p := is_receive_run) (fun _ => rfl) (fun _ _ => rfl)]
  · intro d h200 hb
    rw [if_neg (by rcases h200 with h | h <;> omega), if_pos h200, hb]
    refine ⟨rfl, ?_⟩
    simp [List.filter_append, List.filter_cons, is_receive_emit,
      filter_select_body_eq_nil (p := is_receive_emit) (fun _ => rfl) (fun _ _ => rfl),
      filter_emit_debug_eq_nil (p := is_receive_emit) (fun _ => rfl) (fun _ _ => rfl),
      filter_emit_runs_eq_nil (p := is_receive_emit) (fun _ _ => rfl)]

theorem c3_witness :
    (_make sample_rm ⟨0, 1, ⟨204, Option.none⟩⟩ "/users" "GET" []).result
      = MakeResult.ok Option.none
    ∧ (_make sample_rm ⟨0, 1, ⟨204, Option.none⟩⟩ "/users" "GET" []).trace.filter
        is_receive_emit = []
    ∧ (_make sample_rm ⟨0, 1, ⟨200, some sample_payload⟩⟩ "/users" "GET" []).trace.filter
        is_receive_emit = [Event.receiveEmit sample_payload] := by
  obtain ⟨h1, h2, _⟩ :=
    (c3_thm sample_rm ⟨0, 1, ⟨204, Option.none⟩⟩ "/users" "GET" [] "" (by decide) rfl).1 rfl
  obtain ⟨_, h3⟩ :=
    (c3_thm sample_rm ⟨0, 1, ⟨200, some sample_payload⟩⟩ "/users" "GET" [] "" (by decide)
      rfl).2 sample_payload (Or.inl rfl) rfl
  exact ⟨h1, h2, h3⟩

/-- C5: for every call that reaches the exchange, exactly one request is
issued, whose body is the raw override verbatim when `params` has a truthy
`raw` entry; otherwise the JSON serialization of the entries left after
stripping the five query-related keys, or absent when nothing remains. -/
theorem c5_thm (rm : RequestManager) (w : World) (path method : String)
    (params : Params) (qs : String) (hm : method ∈ allowedMethods)
    (hq : validate_query params = Except.ok qs) :
    ((_make rm w path method params).trace.filter is_http_request
      = [Event.httpRequest method
          (rm.domain ++ "/api/" ++ str_lower rm._type ++ path ++ qs)
          (select_body rm params).1])
    ∧ (truthy (dict_get params "raw") = true →
        (select_body rm params).1 = some (Body.raw (dict_get params "raw")))
    ∧ (truthy (dict_get params "raw") = false → strip_query_keys params = [] →
        (select_body rm params).1 = Option.none)
    ∧ (truthy (dict_get params "raw") = false → strip_query_keys params ≠ [] →
        (select_body rm params).1 = some (Body.json (strip_query_keys params)))
    ∧ (∀ kv : String × PyValue,
        kv ∈ strip_query_keys params ↔ kv ∈ params ∧ kv.1 ∉ query_keys) := by
  refine ⟨?_, ?_, ?_, ?_, ?_⟩
  · rw [make_eq_exchange hm hq]
    unfold exchange
    rw [classify_trace_filter_http]
    simp [List.filter_append, List.filter_cons, is_http_request,
      filter_select_body_eq_nil (p := is_http_request) (fun _ => rfl) (fun _ _ => rfl),
      filter_emit_debug_eq_nil (p := is_http_request) (fun _ => rfl) (fun _ _ => rfl)]
  · intro h
    unfold select_body
    rw [if_pos h]
  · intro h h2
    unfold select_body
    rw [if_neg (by simp [h]), if_pos (by simp [h2])]
  · intro h h2
    unfold select_body
    rw [if_neg (by simp [h]), if_neg (by simp [h2])]
  · intro kv
    simp [strip_query_keys, List.mem_filter]

theorem c5_witness :
    (_make sample_rm ⟨0, 1, ⟨204, Option.none⟩⟩ "/users" "GET"
        [("raw", PyValue.str "payload"), ("page", PyValue.int 2)]).trace.filter
        is_http_request
      = [Event.httpRequest "GET" "https://panel.example/api/application/users?page=2"
          (some (Body.raw (PyValue.str "payload")))] := by
  have h := (c5_thm sample_rm ⟨0, 1, ⟨204, Option.none⟩⟩ "/users" "GET"
    [("raw", PyValue.str "payload"), ("page", PyValue.int 2)] "?page=2"
    (by decide) rfl).1
  exact h.trans (by rfl)

/-- C6: an unsupported method string makes `_make` raise its `ValueError`
before anything happens: no event is emitted (in particular no session is
opened) and the manager state is unchanged. -/
theorem c6_thm (rm : RequestManager) (w : World) (path method : String)
    (params : Params) (hm : method ∉ allowedMethods) :
    (_make rm w path method params).result
      = MakeResult.valueError ("invalid http method '" ++ method ++ "'")
    ∧ (_make rm w path method params).trace = []
    ∧ (_make rm w path method params).finalState = rm := by
  unfold _make
  rw [if_neg hm]
  exact ⟨rfl, rfl, rfl⟩

theorem c6_witness :
    (_make sample_rm ⟨0, 1, ⟨200, some sample_payload⟩⟩ "/users" "HEAD" []).result
      = MakeResult.valueError "invalid http method 'HEAD'"
    ∧ (_make sample_rm ⟨0, 1, ⟨200, some sample_payload⟩⟩ "/users" "HEAD" []).trace
      = [] := by
  obtain ⟨h1, h2, _⟩ := c6_thm sample_rm ⟨0, 1, ⟨200, some sample_payload⟩⟩ "/users"
    "HEAD" [] (by decide)
  exact ⟨h1, h2⟩

/-- C7: on a successful response, every registered `receive` subscriber is
run in registration order, each invocation individually contained, so a
subscriber that raises neither prevents later subscribers from running nor
prevents the call from returning its payload. -/
theorem c7_thm (rm : RequestManager) (w : World) (path method : String)
    (params : Params) (qs : String) (d : Json) (hm : method ∈ allowedMethods)
    (hq : validate_query params = Except.ok qs)
    (h200 : w.response.status = 200 ∨ w.response.status = 201)
    (hb : w.response.jsonBody = some d) :
    (_make rm w path method params).result = MakeResult.ok (some d)
    ∧ (_make rm w path method params).trace.filter is_receive_run
        = emit_runs "receive" rm.receive_slots d := by
  rw [make_eq_exchange hm hq]
  unfold exchange classify
  rw [if_neg (by rcases h200 with h | h <;> omega), if_pos h200, hb]
  refine ⟨rfl, ?_⟩
  simp [List.filter_append, List.filter_cons, is_receive_run,
    filter_select_body_eq_nil (p := is_receive_run) (fun _ => rfl) (fun _ _ => rfl),
    filter_emit_debug_eq_nil (p := is_receive_run) (fun _ => rfl) (fun _ _ => rfl),
    runs_receive_run_self]

theorem c7_witness :
    (_make sample_rm_two_subs ⟨0, 1, ⟨200, some sample_payload⟩⟩ "/users" "GET" []).result
      = MakeResult.ok (some sample_payload)
    ∧ (_make sample_rm_two_subs ⟨0, 1, ⟨200, some sample_payload⟩⟩ "/users" "GET"
        []).trace.filter is_receive_run
      = [Event.callbackRun "receive" 0 false, Event.callbackRun "receive" 1 true] := by
  obtain ⟨h1, h2⟩ := c7_thm sample_rm_two_subs ⟨0, 1, ⟨200, some sample_payload⟩⟩
    "/users" "GET" [] "" sample_payload (by decide) rfl (Or.inl rfl) rfl
  exact ⟨h1, h2.trans (by rfl)⟩

/-- C8: `ping` is `-1` on a freshly constructed manager, and after any call
that completes an exchange — returning or raising — it holds the elapsed time
between the two clock readings, a non-negative number. -/
theorem c8_thm :
    (∀ t d a, (RequestManager.init t d a).ping = -1)
    ∧ (∀ (rm : RequestManager) (w : World) (path method : String) (params : Params)
        (qs : String), method ∈ allowedMethods → validate_query params = Except.ok qs →
        w.t0 ≤ w.t1 →
        (_make rm w path method params).finalState.ping = (w.t1 : Int) - (w.t0 : Int)
        ∧ 0 ≤ (_make rm w path method params).finalState.ping) := by
  refine ⟨fun t d a => rfl, ?_⟩
  intro rm w path method params qs hm hq ht
  rw [make_eq_exchange hm hq]
  have hfs : (exchange rm w path method params (select_body rm params) qs).finalState
      = { rm with ping := (w.t1 : Int) - (w.t0 : Int) } := by
    unfold exchange
    exact classify_finalState _ _ _ _
  rw [hfs]
  refine ⟨rfl, ?_⟩
  simp only [RequestManager.ping]
  omega

theorem c8_witness :
    (RequestManager.init "Application" "https://panel.example" "token").ping = -1
    ∧ (_make sample_rm ⟨3, 7, ⟨204, Option.none⟩⟩ "/users" "GET" []).finalState.ping = 4
    ∧ 0 ≤ (_make sample_rm ⟨3, 7, ⟨204, Option.none⟩⟩ "/users" "GET" []).finalState.ping := by
  obtain ⟨he, hn⟩ := c8_thm.2 sample_rm ⟨3, 7, ⟨204, Option.none⟩⟩ "/users" "GET" [] ""
    (by decide) rfl (by decide)
  exact ⟨c8_thm.1 "Application" "https://panel.example" "token", he.trans (by rfl), hn⟩

/-- C9: the caller-supplied params dict is left unchanged by `_make` on every
path, normal or raising: body selection pops keys from `dict(params)` (a
copy) and `_validate_query` only reads. -/
theorem c9_thm (rm : RequestManager) (w : World) (path method : String)
    (params : Params) : (_make rm w path method params).finalParams = params := by
  unfold _make
  by_cases hm : method ∈ allowedMethods
  · rw [if_pos hm]
    cases hv : validate_query params with
    | error e => rfl
    | ok qs =>
        unfold exchange
        exact classify_finalParams _ _ _ _
  · rw [if_neg hm]
